import Mathlib

/-!
Shallow embedding of the FlashbotLaunch relay client (package flashbot).
The Go sources embedded here are Flashbot.go and the unnamed companion copy;
where the two copies agree the functions are embedded once.  External library
collaborators (go-ethereum crypto, encoding/json wire values, the HTTP
transport, the process environment) are modelled explicitly: JSON wire values
as an inductive type, cryptographic primitives as a record of abstract
functions, and transport plus environment outcomes as explicit inputs.
-/

namespace Flashbot

/-- JSON wire values, modelling what encoding-json marshals and unmarshals.
A Go uint64 placed directly into an envelope marshals as a decimal number
(the num constructor); a hex block string marshals as a str value. -/
inductive Json where
  | null : Json
  | bool : Bool → Json
  | num : Int → Json
  | str : String → Json
  | arr : List Json → Json
  | obj : List (String × Json) → Json

/-- Method constant from the source: eth_sendBundle. -/
def MethodSendBundle : String := "eth_sendBundle"

/-- Method constant from the source: eth_callBundle. -/
def MethodCallBundle : String := "eth_callBundle"

/-- Method constant from the source: eth_sendPrivateTransaction. -/
def MethodSendPrivateTransaction : String := "eth_sendPrivateTransaction"

/-- Method constant from the source: flashbots_getUserStats. -/
def MethodGetUserStats : String := "flashbots_getUserStats"

/-- The single caller-input error value of the source, errorTransaction,
declared as errors.New with this message in Flashbot.go.  It is the source
realisation of the EmptyBundle error of the spec taxonomy. -/
def errorTransaction : String := "Transaction parameters are empty"

/-- Embeds hexutil.EncodeUint64 from go-ethereum, used by both block number
wrappers: a 0x prefix followed by the minimal lowercase big-endian hex
digits of the number (zero renders as the single digit 0). -/
def encodeUint64 (n : Nat) : String := "0x" ++ String.mk (Nat.toDigits 16 n)

/-- Embeds HextoBlockNumber of the unnamed copy: delegates to
hexutil.EncodeUint64. -/
def HextoBlockNumber (blockNumber : Nat) : String := encodeUint64 blockNumber

/-- Embeds WrapperBlockNumber of Flashbot.go: delegates to
hexutil.EncodeUint64, identical to HextoBlockNumber. -/
def WrapperBlockNumber (blockNumber : Nat) : String := encodeUint64 blockNumber

/-- Embeds the SendBundleParams struct (txs, blockNumber, optional
timestamps and reverting hashes). -/
structure SendBundleParams where
  Transactions : List String
  BlockNumber : String
  MinTimestamp : Int := 0
  MaxTimestamp : Int := 0
  RevertingTxHashes : List String := []
deriving DecidableEq

/-- Embeds the CallBundleParams struct (txs, blockNumber, stateBlockNumber,
timestamp). -/
structure CallBundleParams where
  Transactions : List String
  BlockNumber : String
  StateBlockNumber : String
  Timestamp : Int := 0
deriving DecidableEq

/-- Embeds the SendPrivateTx struct of the unnamed copy (txs,
maxBlockNumber, preferences map; SendPrivateTransaction leaves the
preferences map nil). -/
structure SendPrivateTx where
  Transaction : String
  MaxBlockNumber : String
  Preferences : List (String × Bool) := []
deriving DecidableEq

/-- Embeds the bundleResult struct (bundleHash). -/
structure bundleResult where
  BundleHash : String
deriving DecidableEq

/-- Embeds the SendBundleResponse struct of the unnamed copy.  Its only
fields are id, jsonrpc and result: the struct declares no error field, so a
relay error object in a reply has no decode target. -/
structure SendBundleResponse where
  ID : Nat
  Version : String
  Result : Option bundleResult
deriving DecidableEq

/-- Embeds the metaRequestParams envelope struct (jsonrpc, id, method,
params).  The params field holds the marshalled parameter sequence. -/
structure metaRequestParams where
  JsonRPC : String
  Id : Int
  Method : String
  Params : List Json

/-- Embeds the envelope construction inside requestRPC: the source fills
Params with append of params to params itself, so the variadic parameter
slice appears twice in the envelope. -/
def requestEnvelope (Method : String) (params : List Json) : metaRequestParams :=
  { JsonRPC := "2.0", Id := 1, Method := Method, Params := params ++ params }

/-- UTF-8 encoding of one code point, modelling Go string-to-byte-slice
conversion for an individual character. -/
def utf8Bytes (n : Nat) : List Nat :=
  if n < 128 then [n]
  else if n < 2048 then [192 + n / 64, 128 + n % 64]
  else if n < 65536 then [224 + n / 4096, 128 + n / 64 % 64, 128 + n % 64]
  else [240 + n / 262144, 128 + n / 4096 % 64, 128 + n / 64 % 64, 128 + n % 64]

/-- Byte sequence of a string, modelling the Go conversion from string to a
byte slice (UTF-8). -/
def strBytes (s : String) : List Nat :=
  (s.data.map (fun c => utf8Bytes c.toNat)).flatten

/-- Embeds hexutil.Encode from go-ethereum: 0x followed by two lowercase
hex digits per byte. -/
def hexutilEncode (bs : List Nat) : String :=
  "0x" ++ String.mk ((bs.map (fun b => [Nat.digitChar (b / 16 % 16), Nat.digitChar (b % 16)])).flatten)

/-- Embeds accounts.TextHash from go-ethereum, parameterised by the keccak
primitive: keccak of the personal-message string built by the Sprintf with
the fixed domain separator, the decimal byte length, then the data. -/
def TextHash (keccak256 : List Nat → List Nat) (data : List Nat) : List Nat :=
  keccak256 (strBytes ("\x19Ethereum Signed Message:\n" ++ toString data.length) ++ data)

/-- Private key handle; the scalar itself is opaque to this layer. -/
abbrev PrivKey := String

/-- Abstract go-ethereum crypto primitives used by requestRPC and
flashbotHeader: keccak hashing, recoverable ECDSA signing (returning the
signature bytes and an optional error as the Go call does), and address
derivation from the public key of a private key. -/
structure EthCrypto where
  Keccak256 : List Nat → List Nat
  Sign : List Nat → PrivKey → List Nat × Option String
  PubkeyToAddressHex : PrivKey → String

/-- Embeds the signature computation inside requestRPC: crypto.Sign applied
to accounts.TextHash of the byte slice of hexutil.Encode of
crypto.Keccak256 of the payload; the source discards the error component
with a blank identifier, so only the byte component is used. -/
def requestSignatureBytes (C : EthCrypto) (payload : List Nat) (key : PrivKey) : List Nat :=
  (C.Sign (TextHash C.Keccak256 (strBytes (hexutilEncode (C.Keccak256 payload)))) key).1

/-- Embeds flashbotHeader: the hex address derived from the private key, a
colon, then hexutil.Encode of the signature bytes. -/
def flashbotHeader (C : EthCrypto) (signature : List Nat) (privateKey : PrivKey) : String :=
  C.PubkeyToAddressHex privateKey ++ ":" ++ hexutilEncode signature

/-- The complete X-Flashbots-Signature header value computed by requestRPC
for a serialized payload: flashbotHeader applied to the signature bytes. -/
def requestAuthHeader (C : EthCrypto) (payload : List Nat) (key : PrivKey) : String :=
  flashbotHeader C (requestSignatureBytes C payload key) key

/-- Modelled from the spec (section 4.3, Request Signer): the personal
message hash, keccak over the fixed domain separator string, then the
decimal byte length of the input, then the input bytes. -/
def spec_personalMessageHash (keccak256 : List Nat → List Nat) (input : List Nat) : List Nat :=
  keccak256 (strBytes "\x19Ethereum Signed Message:\n" ++ strBytes (toString input.length) ++ input)

/-- Modelled from the spec (section 4.3, steps 1 to 5): digest by keccak of
the serialized bytes, hex-encode the digest, personal-message hash the hex
bytes, sign, and format the header as address, colon, hex signature. -/
def spec_authHeader (C : EthCrypto) (serialized : List Nat) (key : PrivKey) : String :=
  let digest := C.Keccak256 serialized
  let hexEncodedDigestBytes := strBytes (hexutilEncode digest)
  let messageHash := spec_personalMessageHash C.Keccak256 hexEncodedDigestBytes
  let signature := (C.Sign messageHash key).1
  C.PubkeyToAddressHex key ++ ":" ++ hexutilEncode signature

/-- First value of an object field by key, modelling the encoding-json
lookup of a struct tag among the fields of a JSON object. -/
def getField (fields : List (String × Json)) (key : String) : Option Json :=
  (fields.find? (fun p => p.1 == key)).map Prod.snd

/-- Models encoding-json Unmarshal of a JSON value into the bundleResult
struct: the bundleHash tag fills BundleHash when it is a string, a missing
or null field leaves the zero value, a mismatched type is an error, and a
non-object top level is an error. -/
def unmarshalBundleResult (j : Json) : Except String bundleResult :=
  match j with
  | Json.obj fields =>
    match getField fields "bundleHash" with
    | none => Except.ok { BundleHash := "" }
    | some Json.null => Except.ok { BundleHash := "" }
    | some (Json.str s) => Except.ok { BundleHash := s }
    | some _ => Except.error "json: cannot unmarshal into bundleResult"
  | _ => Except.error "json: cannot unmarshal into bundleResult"

/-- Models encoding-json Unmarshal of a reply body into the
SendBundleResponse struct declared by the source: only the tags id, jsonrpc
and result are read, every other field of the reply (in particular an error
object) is ignored, and absent fields keep their zero values. -/
def unmarshalSendBundleResponse (j : Json) : Except String SendBundleResponse :=
  match j with
  | Json.obj fields => do
    let id ← match getField fields "id" with
      | none => Except.ok 0
      | some Json.null => Except.ok 0
      | some (Json.num n) =>
        if n < 0 then Except.error "json: cannot unmarshal into uint" else Except.ok n.toNat
      | some _ => Except.error "json: cannot unmarshal into uint"
    let version ← match getField fields "jsonrpc" with
      | none => Except.ok ""
      | some Json.null => Except.ok ""
      | some (Json.str s) => Except.ok s
      | some _ => Except.error "json: cannot unmarshal into string"
    let result ← match getField fields "result" with
      | none => Except.ok none
      | some Json.null => Except.ok none
      | some v => (unmarshalBundleResult v).map some
    Except.ok { ID := id, Version := version, Result := result }
  | _ => Except.error "json: cannot unmarshal into SendBundleResponse"

/-- Outcome of one requestRPC dispatch.  The terminated constructor models
log.Fatal, which prints and exits the process, so no value is ever returned
to the caller on that path. -/
inductive RpcOutcome where
  | terminated : String → RpcOutcome
  | response : Json → RpcOutcome

/-- Outcomes of the external collaborators consumed by one requestRPC call:
the json.Marshal result for the envelope, the error component of
crypto.Sign, and the combined client.Do plus body read result. -/
structure RpcWorld where
  marshal : Except String (List Nat)
  signErr : Option String
  transport : Except String Json

/-- Embeds the control flow of requestRPC over the collaborator outcomes.
A marshal error and a transport error each hit log.Fatal and terminate the
process.  The error of crypto.Sign is bound to a blank identifier in the
source, so a signing failure changes nothing here: the call proceeds to
transport and the reply is returned as on success. -/
def requestRPC (w : RpcWorld) : RpcOutcome :=
  match w.marshal with
  | Except.error e => RpcOutcome.terminated e
  | Except.ok _payload =>
    match w.transport with
    | Except.error e => RpcOutcome.terminated e
    | Except.ok body => RpcOutcome.response body

/-- Embeds the params construction of SendBundle: the caller transactions
verbatim and the block number through the hex wrapper; the optional fields
keep their zero values. -/
def sendBundleArgs (transactions : List String) (blockNumber : Nat) : SendBundleParams :=
  { Transactions := transactions, BlockNumber := HextoBlockNumber blockNumber }

/-- Observable trace of one SendBundle call: the returned pair, the number
of requestRPC invocations (signing and transport both live inside
requestRPC, so zero invocations means nothing was signed or sent), and the
parameter struct handed to requestRPC when one was. -/
structure SendBundleTrace where
  result : Except String SendBundleResponse
  networkCalls : Nat
  sentParams : Option SendBundleParams

/-- Embeds SendBundle: an empty transaction slice returns errorTransaction
before anything else happens; otherwise the args struct is built, requestRPC
is invoked once, and the reply body is unmarshalled into
SendBundleResponse.  The reply argument stands for the body bytes the
transport returned. -/
def SendBundle (transactions : List String) (blockNumber : Nat) (reply : Json) :
    SendBundleTrace :=
  if transactions.length < 1 then
    { result := Except.error errorTransaction, networkCalls := 0, sentParams := none }
  else
    { result := unmarshalSendBundleResponse reply
      networkCalls := 1
      sentParams := some (sendBundleArgs transactions blockNumber) }

/-- Embeds the params construction of CallBundle: caller transactions and
hex block number as in SendBundle, the state block fixed to the literal
latest, and the timestamp fixed to the constant 1615920932.  The source
signature offers the caller no input that reaches these two fields. -/
def callBundleArgs (transaction : List String) (blockNumber : Nat) : CallBundleParams :=
  { Transactions := transaction
    BlockNumber := HextoBlockNumber blockNumber
    StateBlockNumber := "latest"
    Timestamp := 1615920932 }

/-- Observable trace of one CallBundle call up to dispatch: invocation
count and the parameter struct handed to requestRPC.  The decode of the
reply into CallBundleResponse is not modelled; no claim depends on it. -/
structure CallBundleTrace where
  networkCalls : Nat
  sentParams : Option CallBundleParams

/-- Embeds CallBundle up to dispatch: the same empty-slice guard as
SendBundle, then one requestRPC invocation with callBundleArgs. -/
def CallBundle (transaction : List String) (blockNumber : Nat) : CallBundleTrace :=
  if transaction.length < 1 then { networkCalls := 0, sentParams := none }
  else { networkCalls := 1, sentParams := some (callBundleArgs transaction blockNumber) }

/-- Embeds the params construction of SendPrivateTransaction: the raw
transaction and max block number verbatim; the preferences map is left
nil. -/
def sendPrivateTxArgs (tx : String) (maxBlockNumber : String) : SendPrivateTx :=
  { Transaction := tx, MaxBlockNumber := maxBlockNumber }

/-- Observable trace of one SendPrivateTransaction call up to dispatch. -/
structure SendPrivateTxTrace where
  networkCalls : Nat
  sentParams : Option SendPrivateTx

/-- Embeds SendPrivateTransaction up to dispatch: the source performs no
validation of tx or maxBlockNumber, so the args struct is always built and
requestRPC is always invoked once. -/
def SendPrivateTransaction (tx : String) (maxBlockNumber : String) : SendPrivateTxTrace :=
  { networkCalls := 1, sentParams := some (sendPrivateTxArgs tx maxBlockNumber) }

/-- Observable trace of one GetUserStats call up to dispatch: the variadic
params slice handed to requestRPC, as JSON wire values. -/
structure GetUserStatsTrace where
  networkCalls : Nat
  sentParams : List Json

/-- Embeds GetUserStats up to dispatch: the uint64 block number is passed
to requestRPC directly, so the single parameter marshals as a decimal JSON
number, not as a hex string. -/
def GetUserStats (blockNumber : Nat) : GetUserStatsTrace :=
  { networkCalls := 1, sentParams := [Json.num (Int.ofNat blockNumber)] }

/-- Embeds RelayDefaultRPC: the two known labels map to their https relay
URLs with a nil error; any other label returns the empty string and a
non-nil error built by fmt.Errorf. -/
def RelayDefaultRPC (netType : String) : String × Option String :=
  if netType = "mainnet" then ("https://relay.flashbots.net", none)
  else if netType = "goerli" then ("https://relay-goerli.flashbots.net", none)
  else ("", some ("The netType is wrong!:" ++ netType))

/-- Embeds the FlashbotLaunch client struct: relay endpoint and private
key. -/
structure FlashbotLaunch where
  Rpc : String
  PrivateKey : PrivKey
deriving DecidableEq

/-- Outcome of HexToECDSA: log.Fatal on a parse error, otherwise the
key. -/
inductive KeyOutcome where
  | terminated : String → KeyOutcome
  | key : PrivKey → KeyOutcome
deriving DecidableEq

/-- Embeds HexToECDSA over the outcome of the crypto.HexToECDSA library
call: a parse error hits log.Fatal and terminates the process; otherwise
the parsed key is returned. -/
def HexToECDSA (parseResult : Except String PrivKey) : KeyOutcome :=
  match parseResult with
  | Except.error e => KeyOutcome.terminated e
  | Except.ok k => KeyOutcome.key k

/-- Outcome of New: log.Fatal or a constructed client. -/
inductive NewOutcome where
  | terminated : String → NewOutcome
  | client : FlashbotLaunch → NewOutcome
deriving DecidableEq

/-- Embeds New over the process environment and the key parse outcome: the
RelayDefaultRPC error is bound to a blank identifier and discarded, so the
first component is stored as the endpoint whatever the label was; an empty
environment key hits log.Fatal, and HexToECDSA may terminate as above. -/
def New (relayRPC : String) (envPrivateKey : String)
    (parseResult : Except String PrivKey) : NewOutcome :=
  let rpc := (RelayDefaultRPC relayRPC).1
  if envPrivateKey = "" then NewOutcome.terminated "The PrivateKey is nil!"
  else
    match HexToECDSA parseResult with
    | KeyOutcome.terminated e => NewOutcome.terminated e
    | KeyOutcome.key k => NewOutcome.client { Rpc := rpc, PrivateKey := k }

/-- The byte sequence of a concatenation is the concatenation of the byte
sequences. -/
theorem strBytes_append (a b : String) : strBytes (a ++ b) = strBytes a ++ strBytes b := by
  simp [strBytes, String.data_append]

/-- C1: the claim states the envelope carries the per-method parameter
objects exactly once and the parameter list is never duplicated.  The
source appends the variadic params slice to itself, so the envelope built
for eth_sendBundle from one parameter object carries that object twice: the
doubled-params protocol bug the spec rules out is exactly what the code
does. -/
theorem C1_envelope_params_doubled :
    (requestEnvelope MethodSendBundle [Json.str "bundleArgs"]).Params
        = [Json.str "bundleArgs", Json.str "bundleArgs"]
      ∧ (requestEnvelope MethodSendBundle [Json.str "bundleArgs"]).Params
        ≠ [Json.str "bundleArgs"] := by
  refine ⟨rfl, fun h => ?_⟩
  simpa [requestEnvelope] using congrArg List.length h

/-- C2: for every abstract crypto implementation, every serialized envelope
body and every private key, the header computed by requestRPC and
flashbotHeader equals the spec pipeline: keccak of the body, hex-encode the
digest, personal-message hash of the hex bytes with the fixed domain
separator and length prefix, recoverable signature over that hash, and the
header formatted as derived address, colon, hex signature. -/
theorem C2_signature_pipeline (C : EthCrypto) (payload : List Nat) (key : PrivKey) :
    requestAuthHeader C payload key = spec_authHeader C payload key := by
  unfold requestAuthHeader spec_authHeader flashbotHeader requestSignatureBytes
  unfold TextHash spec_personalMessageHash
  rw [strBytes_append]

/-- A well-formed JSON-RPC error reply: an object whose single field is the
error object with code -32000 and message bundle too large. -/
def relayErrorReply : Json :=
  Json.obj [("error", Json.obj [("code", Json.num (-32000)), ("message", Json.str "bundle too large")])]

/-- C3: the claim states each gateway method surfaces a distinct RelayError
for a well-formed JSON-RPC error reply.  The SendBundleResponse struct has
no error field, so unmarshalling that reply succeeds and yields a
success-shaped value with zero id, empty version and nil result, and
SendBundle returns it with a nil error: the relay error is silently
dropped. -/
theorem C3_relay_error_dropped :
    unmarshalSendBundleResponse relayErrorReply
        = Except.ok { ID := 0, Version := "", Result := none }
      ∧ (SendBundle ["0xtx"] 1 relayErrorReply).result
        = Except.ok { ID := 0, Version := "", Result := none } :=
  ⟨rfl, rfl⟩

/-- C4: the claim states every failure path returns a typed error and never
terminates the process, with signing failures surfaced.  The source instead
hits log.Fatal on a marshal failure and on a transport failure, discards
the crypto.Sign error so a signing failure still yields an ordinary
response, and HexToECDSA hits log.Fatal on a key parse failure. -/
theorem C4_fatal_and_swallowed_failures :
    requestRPC
        { marshal := Except.error "json: marshal failed", signErr := none,
          transport := Except.ok Json.null }
        = RpcOutcome.terminated "json: marshal failed"
      ∧ requestRPC
          { marshal := Except.ok [123], signErr := none,
            transport := Except.error "network broke" }
        = RpcOutcome.terminated "network broke"
      ∧ requestRPC
          { marshal := Except.ok [123], signErr := some "signing failed",
            transport := Except.ok (Json.str "ok") }
        = RpcOutcome.response (Json.str "ok")
      ∧ HexToECDSA (Except.error "invalid hex key") = KeyOutcome.terminated "invalid hex key" :=
  ⟨rfl, rfl, rfl, rfl⟩

/-- C5: for every block number and every would-be reply, SendBundle on an
empty transaction sequence returns the errorTransaction error (the
EmptyBundle of the spec taxonomy), invokes requestRPC zero times — so
nothing is signed and no network call happens — and hands no parameter
struct to the transport. -/
theorem C5_empty_bundle_fails_fast (blockNumber : Nat) (reply : Json) :
    (SendBundle [] blockNumber reply).result = Except.error errorTransaction
      ∧ (SendBundle [] blockNumber reply).networkCalls = 0
      ∧ (SendBundle [] blockNumber reply).sentParams = none :=
  ⟨rfl, rfl, rfl⟩

/-- C6 counterexample: the claim states every gateway method, including
getUserStats, encodes block numbers as 0x-prefixed hex strings.  The hex
wrapper does map 255 to the string 0xff, but GetUserStats hands requestRPC
the raw integer, which marshals as the decimal JSON number 255, not the hex
string. -/
theorem C6_getUserStats_sends_decimal :
    HextoBlockNumber 255 = "0xff"
      ∧ (GetUserStats 255).sentParams = [Json.num 255]
      ∧ (GetUserStats 255).sentParams ≠ [Json.str "0xff"] := by
  refine ⟨by decide, rfl, fun h => ?_⟩
  have h1 : Json.num 255 = Json.str "0xff" := by
    simpa [GetUserStats] using congrArg (fun l => l.headD Json.null) h
  exact Json.noConfusion h1

/-- C6 amended: the block-number wrapper encodes 0 to 0x0 and 255 to 0xff,
and the bundle methods SendBundle and CallBundle place that hex string in
their parameters for every input; GetUserStats alone passes the block
number as a raw integer, serialized as a decimal JSON number. -/
theorem C6_block_number_encoding :
    HextoBlockNumber 0 = "0x0"
      ∧ HextoBlockNumber 255 = "0xff"
      ∧ WrapperBlockNumber 0 = "0x0"
      ∧ WrapperBlockNumber 255 = "0xff"
      ∧ (∀ txs bn, (sendBundleArgs txs bn).BlockNumber = HextoBlockNumber bn)
      ∧ (∀ txs bn, (callBundleArgs txs bn).BlockNumber = HextoBlockNumber bn)
      ∧ (∀ bn, (GetUserStats bn).sentParams = [Json.num (Int.ofNat bn)]) :=
  ⟨by decide, by decide, by decide, by decide,
    fun _ _ => rfl, fun _ _ => rfl, fun _ => rfl⟩

/-- C7 counterexample: the claim states an empty rawTransaction fails with
MissingArgument before any network call.  The source validates nothing:
with the empty raw transaction the parameter struct is still built and
requestRPC is still invoked once. -/
theorem C7_empty_tx_still_dispatched :
    (SendPrivateTransaction "" "0x1234").networkCalls = 1
      ∧ (SendPrivateTransaction "" "0x1234").sentParams
        = some { Transaction := "", MaxBlockNumber := "0x1234" } :=
  ⟨rfl, rfl⟩

/-- C7 amended: SendPrivateTransaction performs no precondition validation
at all; for every rawTransaction, the empty string included, it builds the
parameter struct verbatim and dispatches exactly one network call. -/
theorem C7_no_precondition_validation (tx maxBlockNumber : String) :
    (SendPrivateTransaction tx maxBlockNumber).networkCalls = 1
      ∧ (SendPrivateTransaction tx maxBlockNumber).sentParams
        = some (sendPrivateTxArgs tx maxBlockNumber) :=
  ⟨rfl, rfl⟩

/-- C8 counterexample: the claim states an unknown label never yields a
client holding an empty endpoint.  New discards the RelayDefaultRPC error,
so constructing a client with the unknown label ropsten (and a non-empty
key in the environment) yields a client whose endpoint is the empty
string. -/
theorem C8_unknown_label_empty_endpoint :
    New "ropsten" "deadbeef" (Except.ok "parsedKey")
      = NewOutcome.client { Rpc := "", PrivateKey := "parsedKey" } := by
  decide

/-- C8 amended: resolving a label that is neither mainnet nor goerli fails
with a non-nil error and an empty endpoint string; the two known labels
resolve to non-empty https URLs; but New discards the resolution error, so
a client constructed from an unknown label holds the empty endpoint. -/
theorem C8_endpoint_resolution (netType : String)
    (h1 : netType ≠ "mainnet") (h2 : netType ≠ "goerli") :
    ((RelayDefaultRPC netType).2.isSome ∧ (RelayDefaultRPC netType).1 = "")
      ∧ ((RelayDefaultRPC "mainnet").1 = "https://relay.flashbots.net"
          ∧ (RelayDefaultRPC "mainnet").1 ≠ "")
      ∧ ((RelayDefaultRPC "goerli").1 = "https://relay-goerli.flashbots.net"
          ∧ (RelayDefaultRPC "goerli").1 ≠ "")
      ∧ New netType "deadbeef" (Except.ok "parsedKey")
          = NewOutcome.client { Rpc := "", PrivateKey := "parsedKey" } := by
  refine ⟨⟨?_, ?_⟩, ⟨by decide, by decide⟩, ⟨by decide, by decide⟩, ?_⟩ <;>
    simp [RelayDefaultRPC, New, HexToECDSA, h1, h2]

/-- C8 witness: the amended endpoint theorem applied at the concrete
unknown label ropsten. -/
theorem C8_endpoint_resolution_witness :
    ((RelayDefaultRPC "ropsten").2.isSome ∧ (RelayDefaultRPC "ropsten").1 = "")
      ∧ ((RelayDefaultRPC "mainnet").1 = "https://relay.flashbots.net"
          ∧ (RelayDefaultRPC "mainnet").1 ≠ "")
      ∧ ((RelayDefaultRPC "goerli").1 = "https://relay-goerli.flashbots.net"
          ∧ (RelayDefaultRPC "goerli").1 ≠ "")
      ∧ New "ropsten" "deadbeef" (Except.ok "parsedKey")
          = NewOutcome.client { Rpc := "", PrivateKey := "parsedKey" } :=
  C8_endpoint_resolution "ropsten" (by decide) (by decide)

/-- C9: for every non-empty transaction sequence, every block number and
every reply, SendBundle hands requestRPC exactly the parameter struct built
by sendBundleArgs, whose transactions field is the caller sequence itself —
same elements, same order, nothing inserted or dropped. -/
theorem C9_transactions_preserved (transactions : List String) (blockNumber : Nat)
    (reply : Json) (h : transactions ≠ []) :
    (SendBundle transactions blockNumber reply).sentParams
        = some (sendBundleArgs transactions blockNumber)
      ∧ (sendBundleArgs transactions blockNumber).Transactions = transactions := by
  have hlen : ¬ transactions.length < 1 := by
    simpa [Nat.lt_one_iff, List.length_eq_zero] using h
  exact ⟨by simp [SendBundle, hlen], rfl⟩

/-- C9 witness: the order-preservation theorem applied at a concrete
two-transaction bundle. -/
theorem C9_transactions_preserved_witness :
    (SendBundle ["0xaa", "0xbb"] 7 Json.null).sentParams
        = some (sendBundleArgs ["0xaa", "0xbb"] 7)
      ∧ (sendBundleArgs ["0xaa", "0xbb"] 7).Transactions = ["0xaa", "0xbb"] :=
  C9_transactions_preserved ["0xaa", "0xbb"] 7 Json.null (by decide)

/-- C10: for every non-empty transaction sequence and every block number,
the parameter struct CallBundle hands requestRPC has the literal latest as
its state block reference and the fixed constant 1615920932 as its
timestamp; the construction depends only on the two caller inputs, so no
override can reach either field. -/
theorem C10_callbundle_fixed_state_and_timestamp (transaction : List String)
    (blockNumber : Nat) (h : transaction ≠ []) :
    (CallBundle transaction blockNumber).sentParams
        = some (callBundleArgs transaction blockNumber)
      ∧ (callBundleArgs transaction blockNumber).StateBlockNumber = "latest"
      ∧ (callBundleArgs transaction blockNumber).Timestamp = 1615920932 := by
  have hlen : ¬ transaction.length < 1 := by
    simpa [Nat.lt_one_iff, List.length_eq_zero] using h
  exact ⟨by simp [CallBundle, hlen], rfl, rfl⟩

/-- C10 witness: the fixed-state theorem applied at a concrete
one-transaction bundle. -/
theorem C10_callbundle_fixed_state_and_timestamp_witness :
    (CallBundle ["0xaa"] 12).sentParams = some (callBundleArgs ["0xaa"] 12)
      ∧ (callBundleArgs ["0xaa"] 12).StateBlockNumber = "latest"
      ∧ (callBundleArgs ["0xaa"] 12).Timestamp = 1615920932 :=
  C10_callbundle_fixed_state_and_timestamp ["0xaa"] 12 (by decide)

end Flashbot
